import Mathlib

/-!
Verification of the multi-model AI routing and response-normalization layer of
the sarma backend (`app/services/ai/`): the provider adapters (`base.py`,
`gemini_service.py`, `openai_service.py`), the tolerant nutrition parser and
meal-analysis router (`meal_analyzer.py`), the quick calorie estimate, and the
`ai_metadata` blocks of the capability services (`recipe_generator.py`,
`chat_assistant.py`).

Modelling conventions:
- Python floats are modelled as exact rationals (all numeric literals in this
  code base are decimal, and the only divisions are by powers of ten).
- Rational arithmetic is expressed through `mkRat`-based helpers (`qadd`,
  `qsub`, `qmul`, `qdivNat`) that the kernel can evaluate and that are provably
  equal to the field operations on `ℚ`.
- Network calls are oracles: each adapter operation takes a `...Outcome` value
  describing what the external SDK call did (returned text plus token usage, or
  raised an exception), together with the measured elapsed time and timestamp.
- `json.loads` is modelled by an executable JSON parser over the RFC 8259
  grammar (Python specifics kept: any top-level value, last duplicate key wins,
  no trailing data).  The non-standard `NaN`, `Infinity` extensions of the
  Python decoder are not representable in `ℚ` and are treated as parse
  failures; no claim depends on them.
- Uncaught Python exceptions are modelled by `Except` errors; exceptions that
  the source catches are handled inside the definitions, mirroring each
  `try/except` clause.
-/

namespace Sarma

/-! ### Kernel-computable rational arithmetic

`Rat.add`/`Rat.sub`/`Rat.mul` do not reduce inside the kernel, while `mkRat`
does; these helpers make every numeric definition below evaluable by `decide`
and `rfl`.  They are proved equal to the field operations further down. -/

def qadd (a b : ℚ) : ℚ := mkRat (a.num * b.den + b.num * a.den) (a.den * b.den)

def qsub (a b : ℚ) : ℚ := mkRat (a.num * b.den - b.num * a.den) (a.den * b.den)

def qmul (a b : ℚ) : ℚ := mkRat (a.num * b.num) (a.den * b.den)

/-- Division of a rational by a (positive) natural number. -/
def qdivNat (a : ℚ) (n : ℕ) : ℚ := mkRat a.num (a.den * n)

/-! ### Python string helpers -/

/-- The characters matched by regex `\s` and stripped by `str.strip()`
(ASCII range; the inputs of interest are ASCII). -/
def isPySpace (c : Char) : Bool :=
  c == ' ' || c == '\t' || c == '\n' || c == '\x0d' || c == '\x0b' || c == '\x0c'

/-- `str.strip()`. -/
def pyStrip (cs : List Char) : List Char :=
  ((cs.dropWhile isPySpace).reverse.dropWhile isPySpace).reverse

/-- Digit run: the longest prefix of decimal digits, plus the rest. -/
def takeDigits : List Char → List Char × List Char
  | [] => ([], [])
  | c :: cs =>
    if c.isDigit then
      let (ds, rest) := takeDigits cs
      (c :: ds, rest)
    else ([], c :: cs)

def digitsToNat (ds : List Char) : ℕ :=
  ds.foldl (fun a c => 10 * a + (c.toNat - 48)) 0

/-- The rational `n * 10 ^ e`. -/
def decToRat (n : ℤ) (e : ℤ) : ℚ :=
  if 0 ≤ e then mkRat (n * ((10 : ℤ) ^ e.toNat)) 1 else mkRat n ((10 : ℕ) ^ (-e).toNat)

/-- `float(s)` for a Python string: optional sign, decimal digits with an
optional fractional part, optional exponent, surrounded by optional
whitespace.  (`inf`/`nan` literals are not representable in `ℚ` and yield
`none`; no claim depends on them.) -/
def pyFloatCore (cs : List Char) : Option ℚ :=
  let (sgn, cs1) : ℤ × List Char :=
    match cs with
    | '+' :: r => (1, r)
    | '-' :: r => (-1, r)
    | r => (1, r)
  let (ip, cs2) := takeDigits cs1
  let (fp, cs3) :=
    match cs2 with
    | '.' :: r => takeDigits r
    | _ => ([], cs2)
  if ip.isEmpty && fp.isEmpty then none
  else
    let (expOk, e, cs4) : Bool × ℤ × List Char :=
      match cs3 with
      | 'e' :: r =>
        let (es, r1) : ℤ × List Char :=
          match r with
          | '+' :: rr => (1, rr)
          | '-' :: rr => (-1, rr)
          | rr => (1, rr)
        let (ed, r2) := takeDigits r1
        if ed.isEmpty then (false, 0, r2) else (true, es * (digitsToNat ed : ℤ), r2)
      | 'E' :: r =>
        let (es, r1) : ℤ × List Char :=
          match r with
          | '+' :: rr => (1, rr)
          | '-' :: rr => (-1, rr)
          | rr => (1, rr)
        let (ed, r2) := takeDigits r1
        if ed.isEmpty then (false, 0, r2) else (true, es * (digitsToNat ed : ℤ), r2)
      | _ => (true, 0, cs3)
    if !expOk || !cs4.isEmpty then none
    else some (decToRat (sgn * (digitsToNat (ip ++ fp) : ℤ)) (e - (fp.length : ℤ)))

def pyFloatString (s : String) : Option ℚ := pyFloatCore (pyStrip s.toList)

/-! ### JSON values and `json.loads` -/

inductive Json where
  | null
  | bool (b : Bool)
  | num (q : ℚ)
  | str (s : String)
  | arr (elems : List Json)
  | obj (fields : List (String × Json))

/-- Whitespace accepted between JSON tokens. -/
def isJsonSpace (c : Char) : Bool :=
  c == ' ' || c == '\t' || c == '\n' || c == '\x0d'

def skipWs (cs : List Char) : List Char := cs.dropWhile isJsonSpace

def hexDigitVal (c : Char) : Option ℕ :=
  if c.isDigit then some (c.toNat - 48)
  else if 97 ≤ c.toNat ∧ c.toNat ≤ 102 then some (c.toNat - 87)
  else if 65 ≤ c.toNat ∧ c.toNat ≤ 70 then some (c.toNat - 55)
  else none

/-- Body of a JSON string literal (after the opening quote): characters and
escape sequences up to the closing quote.  Unescaped control characters are
rejected, as in the strict Python decoder. -/
def parseStrBody : List Char → Option (List Char × List Char)
  | [] => none
  | '"' :: rest => some ([], rest)
  | '\\' :: '"' :: rest => (parseStrBody rest).map (fun p => ('"' :: p.1, p.2))
  | '\\' :: '\\' :: rest => (parseStrBody rest).map (fun p => ('\\' :: p.1, p.2))
  | '\\' :: '/' :: rest => (parseStrBody rest).map (fun p => ('/' :: p.1, p.2))
  | '\\' :: 'b' :: rest => (parseStrBody rest).map (fun p => ('\x08' :: p.1, p.2))
  | '\\' :: 'f' :: rest => (parseStrBody rest).map (fun p => ('\x0c' :: p.1, p.2))
  | '\\' :: 'n' :: rest => (parseStrBody rest).map (fun p => ('\n' :: p.1, p.2))
  | '\\' :: 'r' :: rest => (parseStrBody rest).map (fun p => ('\x0d' :: p.1, p.2))
  | '\\' :: 't' :: rest => (parseStrBody rest).map (fun p => ('\t' :: p.1, p.2))
  | '\\' :: 'u' :: h1 :: h2 :: h3 :: h4 :: rest =>
    match hexDigitVal h1, hexDigitVal h2, hexDigitVal h3, hexDigitVal h4 with
    | some a, some b, some c, some d =>
      (parseStrBody rest).map (fun p => (Char.ofNat (((a * 16 + b) * 16 + c) * 16 + d) :: p.1, p.2))
    | _, _, _, _ => none
  | '\\' :: _ => none
  | c :: rest =>
    if c.toNat < 32 then none
    else (parseStrBody rest).map (fun p => (c :: p.1, p.2))

/-- A JSON number token at the head of the input: `-? (0 | [1-9][0-9]*)
(. [0-9]+)? ([eE][+-]?[0-9]+)?`, matched maximally (like the Python decoder's
number regex — malformed tails are left unconsumed for the surrounding
context to reject). -/
def parseNumTok (cs : List Char) : Option (Json × List Char) :=
  let (sgn, cs1) : ℤ × List Char :=
    match cs with
    | '-' :: r => (-1, r)
    | r => (1, r)
  let intPart : Option (List Char × List Char) :=
    match cs1 with
    | '0' :: r => some (['0'], r)      -- int part is `0 | [1-9][0-9]*`
    | _ =>
      match takeDigits cs1 with
      | ([], _) => none
      | (ds, rest) => some (ds, rest)
  match intPart with
  | none => none
  | some (ip, cs2) =>
    let (fp, cs3) : List Char × List Char :=
      match cs2 with
      | '.' :: r =>
        match takeDigits r with
        | ([], _) => ([], cs2)  -- a dot not followed by a digit is not part of the number
        | (ds, rest) => (ds, rest)
      | _ => ([], cs2)
    let (e, cs4) : ℤ × List Char :=
      match cs3 with
      | 'e' :: r =>
        let (es, r1) : ℤ × List Char :=
          match r with
          | '+' :: rr => (1, rr)
          | '-' :: rr => (-1, rr)
          | rr => (1, rr)
        match takeDigits r1 with
        | ([], _) => (0, cs3)
        | (ed, r2) => (es * (digitsToNat ed : ℤ), r2)
      | 'E' :: r =>
        let (es, r1) : ℤ × List Char :=
          match r with
          | '+' :: rr => (1, rr)
          | '-' :: rr => (-1, rr)
          | rr => (1, rr)
        match takeDigits r1 with
        | ([], _) => (0, cs3)
        | (ed, r2) => (es * (digitsToNat ed : ℤ), r2)
      | _ => (0, cs3)
    some (Json.num (decToRat (sgn * (digitsToNat (ip ++ fp) : ℤ)) (e - (fp.length : ℤ))), cs4)

/-- Parser mode: a single value, the elements of an array after `[`, or the
members of an object after `{` (with the items accumulated so far). -/
inductive JMode where
  | value
  | arrElems (acc : List Json)
  | objFields (acc : List (String × Json))

/-- Fuel-based recursive-descent JSON parser (structural recursion on the
fuel, so the kernel can run it). -/
def jparse : ℕ → JMode → List Char → Option (Json × List Char)
  | 0, _, _ => none
  | Nat.succ fuel, JMode.value, cs =>
    match skipWs cs with
    | '\x7b' :: rest =>
      match skipWs rest with
      | '\x7d' :: r2 => some (Json.obj [], r2)
      | _ => jparse fuel (JMode.objFields []) rest
    | '[' :: rest =>
      match skipWs rest with
      | ']' :: r2 => some (Json.arr [], r2)
      | _ => jparse fuel (JMode.arrElems []) rest
    | '"' :: rest => (parseStrBody rest).map (fun p => (Json.str (String.mk p.1), p.2))
    | 't' :: 'r' :: 'u' :: 'e' :: rest => some (Json.bool true, rest)
    | 'f' :: 'a' :: 'l' :: 's' :: 'e' :: rest => some (Json.bool false, rest)
    | 'n' :: 'u' :: 'l' :: 'l' :: rest => some (Json.null, rest)
    | c :: rest =>
      if c == '-' || c.isDigit then parseNumTok (c :: rest) else none
    | [] => none
  | Nat.succ fuel, JMode.arrElems acc, cs =>
    match jparse fuel JMode.value cs with
    | none => none
    | some (v, rest) =>
      match skipWs rest with
      | ',' :: r2 => jparse fuel (JMode.arrElems (acc ++ [v])) r2
      | ']' :: r2 => some (Json.arr (acc ++ [v]), r2)
      | _ => none
  | Nat.succ fuel, JMode.objFields acc, cs =>
    match skipWs cs with
    | '"' :: rest =>
      match parseStrBody rest with
      | none => none
      | some (k, r2) =>
        match skipWs r2 with
        | ':' :: r3 =>
          match jparse fuel JMode.value r3 with
          | none => none
          | some (v, r4) =>
            match skipWs r4 with
            | ',' :: r5 => jparse fuel (JMode.objFields (acc ++ [(String.mk k, v)])) r5
            | '\x7d' :: r5 => some (Json.obj (acc ++ [(String.mk k, v)]), r5)
            | _ => none
        | _ => none
    | _ => none

/-- `json.loads`: parse one document and reject trailing data. -/
def json_loads (s : String) : Option Json :=
  match jparse (2 * s.length + 2) JMode.value s.toList with
  | some (v, rest) => if (skipWs rest).isEmpty then some v else none
  | none => none

/-- `dict.get(key)`: with duplicate keys, `json.loads` keeps the last one. -/
def objGet (fields : List (String × Json)) (key : String) : Option Json :=
  (fields.reverse.find? (fun kv => kv.1 == key)).map (fun kv => kv.2)

/-- `dict.get(key, dflt)`. -/
def objGetD (fields : List (String × Json)) (key : String) (dflt : Json) : Json :=
  (objGet fields key).getD dflt

/-- Python truthiness of a decoded JSON value. -/
def truthy : Json → Bool
  | Json.null => false
  | Json.bool b => b
  | Json.num q => !(q == 0)
  | Json.str s => !s.toList.isEmpty
  | Json.arr l => !l.isEmpty
  | Json.obj f => !f.isEmpty

/-! ### `base.py`: `NutritionData`

`NutritionData(BaseModel)` from `app/services/ai/base.py`.  Optional
micronutrients default to `None`; `confidence` defaults to 0.8.  (Pydantic
validation of the constructor arguments is modelled where `_parse_nutrition`
constructs records from decoded JSON, below.) -/

structure NutritionData where
  calories : ℚ
  protein_g : ℚ
  carbs_g : ℚ
  fat_g : ℚ
  fiber_g : Option ℚ := none
  sugar_g : Option ℚ := none
  sodium_mg : Option ℚ := none
  ingredients : List String := []
  portions : Option (List (String × String)) := none
  meal_type : Option String := none
  confidence : ℚ := mkRat 8 10
  notes : Option String := none
deriving Repr, DecidableEq

/-! ### Python exceptions around `_parse_nutrition`

`_parse_nutrition` catches `(json.JSONDecodeError, KeyError, ValueError)` —
pydantic's `ValidationError` is a `ValueError`, so it is caught too — and
falls back to the natural-language parser.  `TypeError` (from `float()` of a
list/dict/`None`) and `AttributeError` (from `.get` on a non-dict) are not in
that tuple and propagate. -/

inductive PyExc where
  | typeError
  | attributeError
deriving Repr, DecidableEq

inductive BuildErr where
  | caught              -- json.JSONDecodeError / KeyError / ValueError
  | uncaught (e : PyExc)
deriving Repr, DecidableEq

/-- `float(v)` on a decoded JSON value: numbers and bools convert, strings go
through `float(str)` (`ValueError` when unparsable), everything else raises
`TypeError`. -/
def floatF (v : Json) : Except BuildErr ℚ :=
  match v with
  | Json.num q => Except.ok q
  | Json.bool b => Except.ok (if b then 1 else 0)
  | Json.str s =>
    match pyFloatString s with
    | some q => Except.ok q
    | none => Except.error BuildErr.caught          -- ValueError
  | Json.null => Except.error (BuildErr.uncaught PyExc.typeError)
  | Json.arr _ => Except.error (BuildErr.uncaught PyExc.typeError)
  | Json.obj _ => Except.error (BuildErr.uncaught PyExc.typeError)

/-- `float(nutrition_raw.get(key, 0)) if nutrition_raw.get(key) else None`. -/
def optFloatF (nf : List (String × Json)) (key : String) : Except BuildErr (Option ℚ) :=
  match objGet nf key with
  | some v => if truthy v then (floatF v).map some else Except.ok none
  | none => Except.ok none

/-! Pydantic(v2) argument validation for the JSON parse path: `model_dump` in
the callers pins pydantic v2, whose lax mode accepts `None` for `Optional`
fields and does not coerce non-strings to `str`.  A failed validation is a
`ValidationError`, i.e. a caught `ValueError`. -/

def asStr : Json → Option String
  | Json.str s => some s
  | _ => none

def asOptStr : Json → Option (Option String)
  | Json.null => some none
  | Json.str s => some (some s)
  | _ => none

def asStrList : Json → Option (List String)
  | Json.arr l => l.mapM asStr
  | _ => none

def asStrPairs : Json → Option (Option (List (String × String)))
  | Json.null => some none
  | Json.obj f => (f.mapM (fun kv => (asStr kv.2).map (fun v => (kv.1, v)))).map some
  | _ => none

/-- The pydantic construction of `NutritionData(...)` in the JSON branch of
`_parse_nutrition` (lines 168-182), given the already-coerced macro values. -/
def validated_nutrition (fields _nf : List (String × Json))
    (calories protein_g carbs_g fat_g : ℚ)
    (fiber_g sugar_g sodium_mg : Option ℚ) : Except BuildErr NutritionData :=
  match asStrList (objGetD fields ("ingredients") (Json.arr [])),
        asStrPairs (objGetD fields ("portions") (Json.obj [])),
        (match objGet fields ("meal_type") with
         | none => some none
         | some v => asOptStr v),
        asOptStr (objGetD fields ("confidence_notes") (Json.str "")) with
  | some ingredients, some portions, some meal_type, some notes =>
    Except.ok
      { calories, protein_g, carbs_g, fat_g, fiber_g, sugar_g, sodium_mg,
        ingredients, portions, meal_type,
        confidence := mkRat 8 10,   -- base confidence for the JSON path
        notes }
  | _, _, _, _ => Except.error BuildErr.caught    -- pydantic ValidationError

/-- The `float()` coercions of the macro fields, in source evaluation order,
followed by the pydantic construction. -/
def nutrition_macros_build (fields nf : List (String × Json)) : Except BuildErr NutritionData := do
  let calories ← floatF (objGetD nf ("calories") (Json.num 0))
  let protein_g ← floatF (objGetD nf ("protein_g") (Json.num 0))
  let carbs_g ← floatF (objGetD nf ("carbs_g") (Json.num 0))
  let fat_g ← floatF (objGetD nf ("fat_g") (Json.num 0))
  let fiber_g ← optFloatF nf ("fiber_g")
  let sugar_g ← optFloatF nf ("sugar_g")
  let sodium_mg ← optFloatF nf ("sodium_mg")
  validated_nutrition fields nf calories protein_g carbs_g fat_g fiber_g
    sugar_g sodium_mg

/-- `nutrition_raw = data.get("nutrition", {})` must be a dict: `.get` on
anything else raises `AttributeError`. -/
def nutrition_fields_build (fields : List (String × Json)) : Except BuildErr NutritionData :=
  match objGetD fields ("nutrition") (Json.obj []) with
  | Json.obj nf => nutrition_macros_build fields nf
  | _ => Except.error (BuildErr.uncaught PyExc.attributeError)

/-- The JSON branch of `_parse_nutrition`: a non-dict top-level value raises
`AttributeError` on `data.get`. -/
def nutrition_from_json (data : Json) : Except BuildErr NutritionData :=
  match data with
  | Json.obj fields => nutrition_fields_build fields
  | _ => Except.error (BuildErr.uncaught PyExc.attributeError)

/-! ### The regex fallback parser (`_parse_natural_language`) -/

/-- Case-insensitive literal match at the head of the input (regex
`re.IGNORECASE` over the ASCII keywords used below); returns the rest. -/
def ciMatch : List Char → List Char → Option (List Char)
  | [], rest => some rest
  | _ :: _, [] => none
  | p :: ps, c :: rest => if c.toLower == p then ciMatch ps rest else none

/-- Capture group `(\d+\.?\d*)` at the head of the input (greedy, which is
deterministic here since nothing after the group constrains it). -/
def numCapture (cs : List Char) : Option (List Char) :=
  match takeDigits cs with
  | ([], _) => none
  | (ds, rest) =>
    match rest with
    | '.' :: r2 => some (ds ++ '.' :: (takeDigits r2).1)
    | _ => some ds

/-- Try one pattern `LIT\s*(\d+\.?\d*)g?` at a fixed position, where `LIT`
ranges over the expansions of the pattern's optional pieces in regex
preference order.  (`\s*` is effectively deterministic: whitespace and digits
are disjoint, so greedy skipping cannot lose a match.) -/
def keyNumAt (alts : List (List Char)) (cs : List Char) : Option (List Char) :=
  match alts with
  | [] => none
  | a :: rest =>
    match ciMatch a cs with
    | some r =>
      match numCapture (r.dropWhile isPySpace) with
      | some g => some g
      | none => keyNumAt rest cs
    | none => keyNumAt rest cs

/-- `re.search`: leftmost position at which the pattern matches. -/
def searchKeyNum (alts : List (List Char)) : List Char → Option (List Char)
  | [] => none
  | c :: rest =>
    match keyNumAt alts (c :: rest) with
    | some g => some g
    | none => searchKeyNum alts rest

/-- `extract_number(pattern, default=0.0)` from `_parse_natural_language`:
`float(match.group(1))` with `ValueError` ignored in favor of the default. -/
def extract_number (alts : List (List Char)) (text : List Char) : ℚ :=
  match searchKeyNum alts text with
  | some g =>
    match pyFloatString (String.mk g) with
    | some q => q
    | none => 0
  | none => 0

/-- Expansions of `calories?:?` in regex preference order. -/
def calories_alts : List (List Char) :=
  [("calories:").toList, ("calories").toList, ("calorie:").toList, ("calorie").toList]

/-- Expansions of `protein:?`. -/
def protein_alts : List (List Char) := [("protein:").toList, ("protein").toList]

/-- Expansions of `carb(?:ohydrate)?s?:?`. -/
def carbs_alts : List (List Char) :=
  [("carbohydrates:").toList, ("carbohydrates").toList,
   ("carbohydrate:").toList, ("carbohydrate").toList,
   ("carbs:").toList, ("carbs").toList, ("carb:").toList, ("carb").toList]

/-- Expansions of `fat:?`. -/
def fat_alts : List (List Char) := [("fat:").toList, ("fat").toList]

/-- Expansions of `fiber:?`. -/
def fiber_alts : List (List Char) := [("fiber:").toList, ("fiber").toList]

/-- Expansions of `ingredients?:?`. -/
def ingredients_alts : List (List Char) :=
  [("ingredients:").toList, ("ingredients").toList,
   ("ingredient:").toList, ("ingredient").toList]

/-- `\s*([^\n]+)` at a fixed position: greedily skip whitespace, backtracking
one whitespace character at a time until `[^\n]+` can match. -/
def wsLineCaptureAux (cs : List Char) : ℕ → Option (List Char)
  | 0 =>
    match cs with
    | c :: _ => if c == '\n' then none else some (cs.takeWhile (fun x => !(x == '\n')))
    | [] => none
  | Nat.succ k =>
    match cs.drop (Nat.succ k) with
    | c :: _ =>
      if c == '\n' then wsLineCaptureAux cs k
      else some ((cs.drop (Nat.succ k)).takeWhile (fun x => !(x == '\n')))
    | [] => wsLineCaptureAux cs k

def wsLineCapture (cs : List Char) : Option (List Char) :=
  wsLineCaptureAux cs (cs.takeWhile isPySpace).length

/-- One pattern `LIT\s*([^\n]+)` at a fixed position. -/
def lineCaptureAt (alts : List (List Char)) (cs : List Char) : Option (List Char) :=
  match alts with
  | [] => none
  | a :: rest =>
    match ciMatch a cs with
    | some r =>
      match wsLineCapture r with
      | some g => some g
      | none => lineCaptureAt rest cs
    | none => lineCaptureAt rest cs

/-- `re.search` for the ingredients pattern. -/
def searchLineCapture (alts : List (List Char)) : List Char → Option (List Char)
  | [] => none
  | c :: rest =>
    match lineCaptureAt alts (c :: rest) with
    | some g => some g
    | none => searchLineCapture alts rest

/-- `re.split(r'[,;]', text)`. -/
def splitSeps : List Char → List (List Char)
  | [] => [[]]
  | c :: rest =>
    let r := splitSeps rest
    if c == ',' || c == ';' then [] :: r
    else
      match r with
      | h :: t => (c :: h) :: t
      | [] => [[c]]

/-- `MealAnalyzer._parse_natural_language` (meal_analyzer.py lines 188-224):
regex extraction of the macros and an ingredient list, fixed confidence 0.6. -/
def parse_natural_language (text : String) : NutritionData :=
  let cs := text.toList
  let calories := extract_number calories_alts cs
  let protein := extract_number protein_alts cs
  let carbs := extract_number carbs_alts cs
  let fat := extract_number fat_alts cs
  let fiber := extract_number fiber_alts cs
  let ingredients :=
    match searchLineCapture ingredients_alts cs with
    | some captured =>
      ((splitSeps captured).map (fun i => String.mk (pyStrip i))).filter
        (fun i => !i.toList.isEmpty)
    | none => []
  { calories := calories,
    protein_g := protein,
    carbs_g := carbs,
    fat_g := fat,
    fiber_g := if 0 < fiber then some fiber else none,
    ingredients := ingredients,
    confidence := mkRat 6 10,   -- lower confidence for parsed responses
    notes := some ("Parsed from natural language response (fallback mode)") }

/-! ### `_parse_nutrition` -/

/-- `re.search(r'\{.*\}', s, re.DOTALL)`: with DOTALL the greedy `.*` spans
everything, so the match — when one exists — runs from the first opening brace
to the last closing brace after it. -/
def brace_candidate (s : String) : Option String :=
  let cs := s.toList
  match cs.findIdx? (fun c => c == '\x7b'),
        (cs.reverse.findIdx? (fun c => c == '\x7d')).map (fun i => cs.length - 1 - i) with
  | some i, some j => if i < j then some (String.mk ((cs.drop i).take (j - i + 1))) else none
  | _, _ => none

/-- The JSON-decoding stage of `_parse_nutrition`: `json.loads` on the
brace-delimited candidate when one exists, otherwise on the whole response. -/
def extracted_json (ai_response : String) : Option Json :=
  match brace_candidate ai_response with
  | some candidate => json_loads candidate
  | none => json_loads ai_response

/-- `MealAnalyzer._parse_nutrition` (meal_analyzer.py lines 150-186).
`json.JSONDecodeError`, `KeyError` and `ValueError` fall back to
`_parse_natural_language`; `TypeError`/`AttributeError` propagate. -/
def strict_or_fallback (ai_response : String) (data : Json) : Except PyExc NutritionData :=
  match nutrition_from_json data with
  | Except.ok nd => Except.ok nd
  | Except.error BuildErr.caught => Except.ok (parse_natural_language ai_response)
  | Except.error (BuildErr.uncaught e) => Except.error e

def parse_nutrition (ai_response : String) : Except PyExc NutritionData :=
  match extracted_json ai_response with
  | none => Except.ok (parse_natural_language ai_response)
  | some data => strict_or_fallback ai_response data

/-! ### `base.py`: providers, envelopes, and the shared confidence heuristic -/

inductive AIProvider where
  | GEMINI_FLASH
  | GPT4_VISION
  | CLAUDE_VISION
deriving Repr, DecidableEq

/-- The enum member's string value. -/
def AIProvider.value : AIProvider → String
  | AIProvider.GEMINI_FLASH => "gemini-flash"
  | AIProvider.GPT4_VISION => "gpt4-vision"
  | AIProvider.CLAUDE_VISION => "claude-vision"

/-- `AIResponse(BaseModel)` from `base.py`.  (The free-form `metadata` dict of
SDK debug fields is not modelled; no claim mentions it.) -/
structure AIResponse where
  provider : AIProvider
  model : String
  content : String
  confidence : ℚ
  tokens_used : ℕ
  cost_usd : ℚ
  response_time_ms : ℕ
  timestamp : ℚ
  error : Option String := none
deriving Repr, DecidableEq

/-- Substring containment, i.e. Python's `needle in haystack` for strings. -/
def containsSub (needle : List Char) : List Char → Bool
  | [] => needle.isEmpty
  | c :: rest => needle.isPrefixOf (c :: rest) || containsSub needle rest

def uncertainty_phrases : List String :=
  [("might be"), ("could be"), ("possibly"), ("probably"),
   ("not sure"), ("unclear"), ("difficult to tell")]

/-- `BaseAIService.assess_confidence` (base.py lines 99-123): start at 0.8,
subtract 0.1 per uncertainty phrase found in the lowercased response, add 0.05
when the response is longer than 200 characters, clamp to [0, 1]. -/
def assess_confidence (response : String) : ℚ :=
  let lower_response := response.toList.map Char.toLower
  let confidence :=
    uncertainty_phrases.foldl
      (fun c phrase =>
        if containsSub phrase.toList lower_response then qsub c (mkRat 1 10) else c)
      (mkRat 8 10)
  let confidence :=
    if 200 < response.length then qadd confidence (mkRat 5 100) else confidence
  max 0 (min 1 confidence)

/-! ### Call outcomes (oracles for the external SDK calls)

Each adapter operation is a pure function of what the provider call did.  A
`failure` is any exception raised inside the `try` block (network error,
timeout, SDK error); its string is `str(e)`. -/

/-- Outcome of a Gemini SDK call whose response object may or may not carry
`usage_metadata` (`prompt_token_count`, `candidates_token_count`). -/
inductive GeminiOutcome where
  | success (text : String) (usage : Option (ℕ × ℕ))
  | failure (message : String)
deriving Repr, DecidableEq

/-- Outcome of a Gemini chat call (token usage is always approximated from
text lengths there, so no usage field). -/
inductive CallOutcome where
  | success (text : String)
  | failure (message : String)
deriving Repr, DecidableEq

/-- Outcome of an OpenAI call: `response.usage` always carries
`prompt_tokens`, `completion_tokens`, `total_tokens`. -/
inductive OpenAIOutcome where
  | success (text : String) (prompt_tokens completion_tokens total_tokens : ℕ)
  | failure (message : String)
deriving Repr, DecidableEq

structure ChatMessage where
  role : String
  content : String
deriving Repr, DecidableEq

/-! ### `gemini_service.py` -/

namespace GeminiService

def INPUT_COST_PER_1M : ℚ := mkRat 75 1000     -- $0.075 per 1M input tokens
def OUTPUT_COST_PER_1M : ℚ := mkRat 30 100     -- $0.30 per 1M output tokens
def IMAGE_COST_PER_1K : ℚ := mkRat 25 10000    -- $0.0025 per 1K images

def default_model : String := "gemini-2.0-flash-exp"

/-- `GeminiService.calculate_cost`. -/
def calculate_cost (input_tokens output_tokens : ℕ) : ℚ :=
  qadd (qmul (mkRat input_tokens 1000000) INPUT_COST_PER_1M)
       (qmul (mkRat output_tokens 1000000) OUTPUT_COST_PER_1M)

/-- `GeminiService.analyze_image` (lines 37-121): token counts fall back to
`len(text) // 4` when `usage_metadata` is absent; cost adds the per-image
charge; confidence is assessed from the response text.  Any exception becomes
an error envelope. -/
def analyze_image (prompt : String) (outcome : GeminiOutcome)
    (response_time_ms : ℕ) (timestamp : ℚ) : AIResponse :=
  match outcome with
  | GeminiOutcome.success text usage =>
    let input_tokens := match usage with | some u => u.1 | none => prompt.length / 4
    let output_tokens := match usage with | some u => u.2 | none => text.length / 4
    { provider := AIProvider.GEMINI_FLASH,
      model := default_model,
      content := text,
      confidence := assess_confidence text,
      tokens_used := input_tokens + output_tokens,
      cost_usd := qadd (calculate_cost input_tokens output_tokens) (qdivNat IMAGE_COST_PER_1K 1000),
      response_time_ms, timestamp, error := none }
  | GeminiOutcome.failure message =>
    { provider := AIProvider.GEMINI_FLASH,
      model := default_model,
      content := "",
      confidence := 0,
      tokens_used := 0,
      cost_usd := 0,
      response_time_ms, timestamp, error := some message }

/-- `GeminiService.generate_text` (lines 123-185): the prompt is prefixed with
the context (if any) before the length-based token fallback; no image cost. -/
def generate_text (prompt : String) (context : Option String) (outcome : GeminiOutcome)
    (response_time_ms : ℕ) (timestamp : ℚ) : AIResponse :=
  match outcome with
  | GeminiOutcome.success text usage =>
    let full_prompt := match context with | some c => c ++ "\n\n" ++ prompt | none => prompt
    let input_tokens := match usage with | some u => u.1 | none => full_prompt.length / 4
    let output_tokens := match usage with | some u => u.2 | none => text.length / 4
    { provider := AIProvider.GEMINI_FLASH,
      model := default_model,
      content := text,
      confidence := assess_confidence text,
      tokens_used := input_tokens + output_tokens,
      cost_usd := calculate_cost input_tokens output_tokens,
      response_time_ms, timestamp, error := none }
  | GeminiOutcome.failure message =>
    { provider := AIProvider.GEMINI_FLASH,
      model := default_model,
      content := "",
      confidence := 0,
      tokens_used := 0,
      cost_usd := 0,
      response_time_ms, timestamp, error := some message }

/-- `GeminiService.chat` (lines 187-243): token counts are always approximated
from the text lengths. -/
def chat (messages : List ChatMessage) (outcome : CallOutcome)
    (response_time_ms : ℕ) (timestamp : ℚ) : AIResponse :=
  match outcome with
  | CallOutcome.success text =>
    let total_prompt_length := (messages.map (fun m => m.content.length)).sum
    let input_tokens := total_prompt_length / 4
    let output_tokens := text.length / 4
    { provider := AIProvider.GEMINI_FLASH,
      model := default_model,
      content := text,
      confidence := assess_confidence text,
      tokens_used := input_tokens + output_tokens,
      cost_usd := calculate_cost input_tokens output_tokens,
      response_time_ms, timestamp, error := none }
  | CallOutcome.failure message =>
    { provider := AIProvider.GEMINI_FLASH,
      model := default_model,
      content := "",
      confidence := 0,
      tokens_used := 0,
      cost_usd := 0,
      response_time_ms, timestamp, error := some message }

end GeminiService

/-! ### `openai_service.py` -/

namespace OpenAIVisionService

def INPUT_COST_PER_1M : ℚ := mkRat 5 1         -- $5.00 per 1M input tokens
def OUTPUT_COST_PER_1M : ℚ := mkRat 15 1       -- $15.00 per 1M output tokens
def IMAGE_COST_BASE : ℚ := mkRat 1275 100000   -- $0.01275 per image

def default_model : String := "gpt-4o"

/-- `OpenAIVisionService.calculate_cost`. -/
def calculate_cost (input_tokens output_tokens : ℕ) : ℚ :=
  qadd (qmul (mkRat input_tokens 1000000) INPUT_COST_PER_1M)
       (qmul (mkRat output_tokens 1000000) OUTPUT_COST_PER_1M)

/-- `OpenAIVisionService.analyze_image` (lines 34-129): adds the image cost
and a +0.05 confidence bump clamped by `min(1.0, ...)`. -/
def analyze_image (outcome : OpenAIOutcome)
    (response_time_ms : ℕ) (timestamp : ℚ) : AIResponse :=
  match outcome with
  | OpenAIOutcome.success text prompt_tokens completion_tokens total_tokens =>
    { provider := AIProvider.GPT4_VISION,
      model := default_model,
      content := text,
      confidence := min 1 (qadd (assess_confidence text) (mkRat 5 100)),
      tokens_used := total_tokens,
      cost_usd := qadd (calculate_cost prompt_tokens completion_tokens) IMAGE_COST_BASE,
      response_time_ms, timestamp, error := none }
  | OpenAIOutcome.failure message =>
    { provider := AIProvider.GPT4_VISION,
      model := default_model,
      content := "",
      confidence := 0,
      tokens_used := 0,
      cost_usd := 0,
      response_time_ms, timestamp, error := some message }

/-- `OpenAIVisionService.generate_text` (lines 131-194): the +0.05 confidence
bump here is NOT clamped (`assess_confidence(content) + 0.05`). -/
def generate_text (outcome : OpenAIOutcome)
    (response_time_ms : ℕ) (timestamp : ℚ) : AIResponse :=
  match outcome with
  | OpenAIOutcome.success text prompt_tokens completion_tokens total_tokens =>
    { provider := AIProvider.GPT4_VISION,
      model := default_model,
      content := text,
      confidence := qadd (assess_confidence text) (mkRat 5 100),
      tokens_used := total_tokens,
      cost_usd := calculate_cost prompt_tokens completion_tokens,
      response_time_ms, timestamp, error := none }
  | OpenAIOutcome.failure message =>
    { provider := AIProvider.GPT4_VISION,
      model := default_model,
      content := "",
      confidence := 0,
      tokens_used := 0,
      cost_usd := 0,
      response_time_ms, timestamp, error := some message }

/-- `OpenAIVisionService.chat` (lines 196-251): same unclamped +0.05 bump. -/
def chat (outcome : OpenAIOutcome)
    (response_time_ms : ℕ) (timestamp : ℚ) : AIResponse :=
  match outcome with
  | OpenAIOutcome.success text prompt_tokens completion_tokens total_tokens =>
    { provider := AIProvider.GPT4_VISION,
      model := default_model,
      content := text,
      confidence := qadd (assess_confidence text) (mkRat 5 100),
      tokens_used := total_tokens,
      cost_usd := calculate_cost prompt_tokens completion_tokens,
      response_time_ms, timestamp, error := none }
  | OpenAIOutcome.failure message =>
    { provider := AIProvider.GPT4_VISION,
      model := default_model,
      content := "",
      confidence := 0,
      tokens_used := 0,
      cost_usd := 0,
      response_time_ms, timestamp, error := some message }

end OpenAIVisionService

/-! ### `meal_analyzer.py` -/

/-- Values appearing in an `ai_metadata` dict. -/
inductive MetaVal where
  | provider (p : AIProvider)
  | text (s : String)
  | rat (q : ℚ)
  | nat (n : ℕ)
  | optText (s : Option String)
deriving Repr, DecidableEq

namespace MealAnalyzer

/-- Upgrade to GPT-4 if below this. -/
def CONFIDENCE_THRESHOLD : ℚ := mkRat 7 10

/-- `MealAnalyzer._get_analysis_prompt` (lines 114-148). -/
def analysis_prompt : String :=
  "Analyze this meal photo and provide detailed nutrition information.

Your response MUST be in valid JSON format following this structure:

\x7b
  \"meal_name\": \"Brief description of the meal\",
  \"ingredients\": [\"ingredient1\", \"ingredient2\", ...],
  \"portions\": \x7b
    \"ingredient1\": \"estimated amount (e.g., 150g, 1 cup)\",
    \"ingredient2\": \"estimated amount\"
  \x7d,
  \"nutrition\": \x7b
    \"calories\": 450,
    \"protein_g\": 25.5,
    \"carbs_g\": 45.0,
    \"fat_g\": 15.0,
    \"fiber_g\": 5.0,
    \"sugar_g\": 8.0,
    \"sodium_mg\": 650
  \x7d,
  \"meal_type\": \"breakfast|lunch|dinner|snack\",
  \"confidence_notes\": \"Any uncertainties or assumptions made\"
\x7d

Instructions:
1. Identify ALL visible food items
2. Estimate portion sizes based on typical serving sizes
3. Calculate total nutrition for the ENTIRE meal
4. Be as accurate as possible with nutritional values
5. Include notes about any uncertainties
6. If you cannot clearly identify something, mention it in confidence_notes

Return ONLY valid JSON, no additional text before or after."

/-- The prompt of `quick_calorie_estimate` (lines 231-237). -/
def quick_prompt : String :=
  "Analyze this meal and provide a quick estimate:

Return JSON format:
\x7b
  \"calories\": <estimated calories>,
  \"description\": \"brief meal description\"
\x7d"

/-- Oracles for the (at most two) provider calls one `analyze_meal` request
can make: what the Gemini call and the GPT-4 call would each return. -/
structure Ctx where
  gemini_outcome : GeminiOutcome
  gemini_response_time_ms : ℕ
  gemini_timestamp : ℚ
  openai_outcome : OpenAIOutcome
  openai_response_time_ms : ℕ
  openai_timestamp : ℚ
deriving Repr, DecidableEq

/-- `MealAnalyzer._analyze_with_gemini` (lines 83-86). -/
def analyze_with_gemini (ctx : Ctx) : AIResponse :=
  GeminiService.analyze_image analysis_prompt ctx.gemini_outcome
    ctx.gemini_response_time_ms ctx.gemini_timestamp

/-- `MealAnalyzer._analyze_with_gpt4` (lines 88-91); the `detail="high"`
kwarg only shapes the outbound API request. -/
def analyze_with_gpt4 (ctx : Ctx) : AIResponse :=
  OpenAIVisionService.analyze_image ctx.openai_outcome
    ctx.openai_response_time_ms ctx.openai_timestamp

/-- `MealAnalyzer._select_provider` (lines 93-112).  `if force_provider:` is
truthy for every enum member, so a supplied provider is returned
unconditionally; otherwise premium maps to GPT-4 and everything else to
Gemini. -/
def select_provider (user_tier : String) (force_provider : Option AIProvider) : AIProvider :=
  match force_provider with
  | some p => p
  | none =>
    if user_tier = "premium" then AIProvider.GPT4_VISION else AIProvider.GEMINI_FLASH

/-- The `ai_metadata` dict built by `analyze_meal` (lines 71-79). -/
def ai_metadata (result : AIResponse) : List (String × MetaVal) :=
  [(("provider"), MetaVal.provider result.provider),
   (("model"), MetaVal.text result.model),
   (("confidence"), MetaVal.rat result.confidence),
   (("cost_usd"), MetaVal.rat result.cost_usd),
   (("response_time_ms"), MetaVal.nat result.response_time_ms),
   (("tokens_used"), MetaVal.nat result.tokens_used),
   (("error"), MetaVal.optText result.error)]

/-- The dict returned by `analyze_meal` (the `analyzed_at` wall-clock field is
not modelled; no claim mentions it). -/
structure AnalyzeMealOutput where
  nutrition : NutritionData
  ai_metadata : List (String × MetaVal)
deriving Repr, DecidableEq

/-- Packaging of a chosen envelope into the returned dict: `_parse_nutrition`
may raise (see `parse_nutrition`), which would propagate out of
`analyze_meal`. -/
def meal_output (result : AIResponse) : Except PyExc AnalyzeMealOutput :=
  (parse_nutrition result.content).map
    (fun n => { nutrition := n, ai_metadata := ai_metadata result })

/-- `MealAnalyzer.analyze_meal` (lines 35-81).  Returns the ordered list of
provider calls actually issued together with the result.  When the selected
provider is Gemini and its confidence is below the threshold for a premium
tier, the request is re-issued once against GPT-4 and that second envelope is
the one parsed and returned. -/
def analyze_meal (ctx : Ctx) (user_tier : String) (force_provider : Option AIProvider) :
    List AIProvider × Except PyExc AnalyzeMealOutput :=
  let provider := select_provider user_tier force_provider
  if provider = AIProvider.GEMINI_FLASH then
    let result := analyze_with_gemini ctx
    if result.confidence < CONFIDENCE_THRESHOLD ∧ user_tier = "premium" then
      ([AIProvider.GEMINI_FLASH, AIProvider.GPT4_VISION], meal_output (analyze_with_gpt4 ctx))
    else
      ([AIProvider.GEMINI_FLASH], meal_output result)
  else
    ([AIProvider.GPT4_VISION], meal_output (analyze_with_gpt4 ctx))

/-- Result dict of `quick_calorie_estimate`: the success branch carries the
four fields `calories`, `description`, `cost_usd`, `response_time_ms`; the
bare-`except` branch carries only `calories=0`, `description`, `error`. -/
inductive QuickEstimate where
  | parsed (calories description : Json) (cost_usd : ℚ) (response_time_ms : ℕ)
  | failed (error : Option String)

/-- Whether the result dict contains the `cost_usd` and `response_time_ms`
fields. -/
def QuickEstimate.includes_cost_fields : QuickEstimate → Bool
  | QuickEstimate.parsed _ _ _ _ => true
  | QuickEstimate.failed _ => false

/-- `MealAnalyzer.quick_calorie_estimate` (lines 226-254): always Gemini with
the minimal prompt; `json.loads` on the whole content, and on any exception
(including `.get` on a non-dict) the fallback dict is returned. -/
def quick_calorie_estimate (outcome : GeminiOutcome)
    (response_time_ms : ℕ) (timestamp : ℚ) : QuickEstimate :=
  let result := GeminiService.analyze_image quick_prompt outcome response_time_ms timestamp
  match json_loads result.content with
  | some (Json.obj fields) =>
    QuickEstimate.parsed
      (objGetD fields ("calories") (Json.num 0))
      (objGetD fields ("description") (Json.str ("Unknown meal")))
      result.cost_usd result.response_time_ms
  | _ => QuickEstimate.failed result.error

end MealAnalyzer

/-! ### `recipe_generator.py` and `chat_assistant.py`: the `ai_metadata`
blocks of the remaining inbound capability calls -/

namespace RecipeGenerator

/-- The `ai_metadata` dict of `generate_recipe` (lines 71-77). -/
def generate_recipe_ai_metadata (result : AIResponse) : List (String × MetaVal) :=
  [(("provider"), MetaVal.provider result.provider),
   (("model"), MetaVal.text result.model),
   (("confidence"), MetaVal.rat result.confidence),
   (("cost_usd"), MetaVal.rat result.cost_usd),
   (("response_time_ms"), MetaVal.nat result.response_time_ms)]

/-- The `ai_metadata` dict of `generate_from_photo` (lines 136-140). -/
def generate_from_photo_ai_metadata (result : AIResponse) : List (String × MetaVal) :=
  [(("provider"), MetaVal.provider result.provider),
   (("cost_usd"), MetaVal.rat result.cost_usd),
   (("response_time_ms"), MetaVal.nat result.response_time_ms)]

end RecipeGenerator

namespace ChatAssistant

/-- The `ai_metadata` dict of `chat` (lines 82-89). -/
def chat_ai_metadata (result : AIResponse) : List (String × MetaVal) :=
  [(("provider"), MetaVal.provider result.provider),
   (("model"), MetaVal.text result.model),
   (("confidence"), MetaVal.rat result.confidence),
   (("cost_usd"), MetaVal.rat result.cost_usd),
   (("response_time_ms"), MetaVal.nat result.response_time_ms),
   (("tokens_used"), MetaVal.nat result.tokens_used)]

/-- The `ai_metadata` dict of `suggest_meal` (lines 135-139). -/
def suggest_meal_ai_metadata (result : AIResponse) : List (String × MetaVal) :=
  [(("provider"), MetaVal.provider result.provider),
   (("cost_usd"), MetaVal.rat result.cost_usd),
   (("response_time_ms"), MetaVal.nat result.response_time_ms)]

/-- The `ai_metadata` dict of `analyze_diet_trends` (lines 228-232). -/
def analyze_diet_trends_ai_metadata (result : AIResponse) : List (String × MetaVal) :=
  [(("provider"), MetaVal.provider result.provider),
   (("cost_usd"), MetaVal.rat result.cost_usd),
   (("response_time_ms"), MetaVal.nat result.response_time_ms)]

end ChatAssistant

/-- The exact field list the spec requires of every `ai_metadata` block. -/
def required_ai_metadata_keys : List String :=
  [("provider"), ("model"), ("confidence"), ("cost_usd"),
   ("response_time_ms"), ("tokens_used"), ("error")]

/-! ### Shape predicates for the parser-totality analysis (C2)

`_parse_nutrition` raises only through `float()` applied to a `None`/list/dict
(`TypeError`) or `.get` on a non-dict (`AttributeError`); these predicates
delimit the decoded-JSON shapes on which neither happens. -/

/-- Values `float()` accepts without `TypeError` (a bad string is a `ValueError`,
which the source catches). -/
def float_coercible : Json → Bool
  | Json.num _ => true
  | Json.bool _ => true
  | Json.str _ => true
  | _ => false

def macro_keys : List String := [("calories"), ("protein_g"), ("carbs_g"), ("fat_g")]

def optional_macro_keys : List String := [("fiber_g"), ("sugar_g"), ("sodium_mg")]

/-- A required macro entry is benign when absent (the `.get` default `0` is
used) or `float`-coercible. -/
def benign_required (nf : List (String × Json)) (key : String) : Bool :=
  match objGet nf key with
  | none => true
  | some v => float_coercible v

/-- An optional macro entry is additionally benign whenever falsy (the guard
`if nutrition_raw.get(key)` skips the `float()` call). -/
def benign_optional (nf : List (String × Json)) (key : String) : Bool :=
  match objGet nf key with
  | none => true
  | some v => !truthy v || float_coercible v

/-- A field dict whose `nutrition` entry (defaulting to `{}`) is a dict with
benign macro entries. -/
def benign_fields (fields : List (String × Json)) : Bool :=
  match objGetD fields ("nutrition") (Json.obj []) with
  | Json.obj nf =>
    macro_keys.all (benign_required nf) && optional_macro_keys.all (benign_optional nf)
  | _ => false

/-- Decoded JSON on which the strict branch of `_parse_nutrition` raises no
uncaught exception: a dict whose `nutrition` entry (if present) is a dict with
benign macro entries. -/
def benign_json : Json → Bool
  | Json.obj fields => benign_fields fields
  | _ => false

/-- `r` is not an uncaught Python exception. -/
def noRaise {α : Type} (r : Except BuildErr α) : Prop :=
  ∀ e, r ≠ Except.error (BuildErr.uncaught e)

/-! ### Concrete fixtures used by the witnesses and counterexamples -/

/-- Premium request, no forced provider, where the (primary) GPT-4 call fails:
its envelope has confidence 0 < 0.7. -/
def c1_cx_ctx : MealAnalyzer.Ctx :=
  { gemini_outcome := GeminiOutcome.success ("rice bowl") (some (100, 50)),
    gemini_response_time_ms := 800, gemini_timestamp := 1,
    openai_outcome := OpenAIOutcome.failure ("rate limited"),
    openai_response_time_ms := 300, openai_timestamp := 2 }

/-- A Gemini call whose response text carries two uncertainty phrases
(confidence 0.6 < 0.7) next to a healthy GPT-4 response. -/
def c1_ctx : MealAnalyzer.Ctx :=
  { gemini_outcome := GeminiOutcome.success ("might be pasta, not sure") (some (100, 50)),
    gemini_response_time_ms := 800, gemini_timestamp := 1,
    openai_outcome := OpenAIOutcome.success ("\x7b\"nutrition\": \x7b\"calories\": 520\x7d\x7d") 200 100 300,
    openai_response_time_ms := 900, openai_timestamp := 2 }

def c5_ctx : MealAnalyzer.Ctx :=
  { gemini_outcome := GeminiOutcome.success ("might be a salad, unclear") (some (80, 40)),
    gemini_response_time_ms := 700, gemini_timestamp := 1,
    openai_outcome := OpenAIOutcome.success ("\x7b\"nutrition\": \x7b\"calories\": 430\x7d\x7d") 150 80 230,
    openai_response_time_ms := 850, openai_timestamp := 2 }

def c5_w_ctx : MealAnalyzer.Ctx :=
  { gemini_outcome := GeminiOutcome.success ("grilled chicken plate") (some (90, 45)),
    gemini_response_time_ms := 650, gemini_timestamp := 1,
    openai_outcome := OpenAIOutcome.success ("\x7b\"nutrition\": \x7b\"calories\": 510\x7d\x7d") 160 90 250,
    openai_response_time_ms := 870, openai_timestamp := 2 }

/-- Primary Gemini call errors under a premium tier with a forced Gemini
provider. -/
def c6_cx_ctx : MealAnalyzer.Ctx :=
  { gemini_outcome := GeminiOutcome.failure ("connection reset"),
    gemini_response_time_ms := 120, gemini_timestamp := 1,
    openai_outcome := OpenAIOutcome.success ("\x7b\"nutrition\": \x7b\"calories\": 500\x7d\x7d") 140 70 210,
    openai_response_time_ms := 880, openai_timestamp := 2 }

/-- Primary GPT-4 call (premium default) errors. -/
def c6_w_ctx : MealAnalyzer.Ctx :=
  { gemini_outcome := GeminiOutcome.success ("unused") (some (10, 10)),
    gemini_response_time_ms := 100, gemini_timestamp := 1,
    openai_outcome := OpenAIOutcome.failure ("timeout after 30s"),
    openai_response_time_ms := 30000, openai_timestamp := 2 }

def c8_env : AIResponse :=
  { provider := AIProvider.GEMINI_FLASH, model := ("gemini-2.0-flash-exp"),
    content := ("ok"), confidence := mkRat 8 10, tokens_used := 42,
    cost_usd := mkRat 3 1000, response_time_ms := 500, timestamp := 1, error := none }

def c9_text : String := "\x7b\"calories\": 410, \"description\": \"turkey sandwich\"\x7d"

def c9_outcome : GeminiOutcome := GeminiOutcome.success c9_text (some (20, 10))

def c9_fields : List (String × Json) :=
  [(("calories"), Json.num (mkRat 410 1)), (("description"), Json.str ("turkey sandwich"))]

def c10_ctx : MealAnalyzer.Ctx :=
  { gemini_outcome := GeminiOutcome.success ("could be soup, difficult to tell") (some (100, 50)),
    gemini_response_time_ms := 750, gemini_timestamp := 1,
    openai_outcome := OpenAIOutcome.success ("\x7b\"nutrition\": \x7b\"calories\": 520\x7d\x7d") 180 95 275,
    openai_response_time_ms := 910, openai_timestamp := 2 }

/-- The malformed-output scenario text of spec section 8. -/
def c7_text : String :=
  "This meal has about 450 calories and 30g protein, not much else detected."

/-! ## Theorems -/

/-! ### The `mkRat`-based arithmetic agrees with the field operations on `ℚ` -/

theorem qadd_eq (a b : ℚ) : qadd a b = a + b := by
  have ha : ((a.den : ℚ)) ≠ 0 := by exact_mod_cast a.den_nz
  have hb : ((b.den : ℚ)) ≠ 0 := by exact_mod_cast b.den_nz
  rw [qadd, Rat.mkRat_eq_div]
  conv_rhs => rw [← Rat.num_div_den a, ← Rat.num_div_den b]
  push_cast
  field_simp
  try ring

theorem qsub_eq (a b : ℚ) : qsub a b = a - b := by
  have ha : ((a.den : ℚ)) ≠ 0 := by exact_mod_cast a.den_nz
  have hb : ((b.den : ℚ)) ≠ 0 := by exact_mod_cast b.den_nz
  rw [qsub, Rat.mkRat_eq_div]
  conv_rhs => rw [← Rat.num_div_den a, ← Rat.num_div_den b]
  push_cast
  field_simp
  try ring

theorem qmul_eq (a b : ℚ) : qmul a b = a * b := by
  have ha : ((a.den : ℚ)) ≠ 0 := by exact_mod_cast a.den_nz
  have hb : ((b.den : ℚ)) ≠ 0 := by exact_mod_cast b.den_nz
  rw [qmul, Rat.mkRat_eq_div]
  conv_rhs => rw [← Rat.num_div_den a, ← Rat.num_div_den b]
  push_cast
  try field_simp
  try ring

/-- One decrement step of the phrase loop never increases the confidence. -/
theorem qsub_step_le (c : ℚ) (b : Bool) :
    (if b = true then qsub c (mkRat 1 10) else c) ≤ c := by
  cases b with
  | true =>
    simp only [if_true, qsub_eq]
    have : (0 : ℚ) ≤ mkRat 1 10 := by rw [Rat.mkRat_eq_div]; norm_num
    linarith
  | false => simp

/-! ### Bounds on the shared confidence heuristic -/

theorem phrase_foldl_le (l : List String) (lower : List Char) (c : ℚ) :
    l.foldl
      (fun c phrase =>
        if containsSub phrase.toList lower then qsub c (mkRat 1 10) else c) c ≤ c := by
  induction l generalizing c with
  | nil => exact le_refl c
  | cons p rest ih => exact le_trans (ih _) (qsub_step_le c _)

theorem assess_confidence_nonneg (s : String) : 0 ≤ assess_confidence s :=
  le_max_left 0 _

theorem assess_confidence_le_one (s : String) : assess_confidence s ≤ 1 :=
  max_le (by norm_num) (min_le_left 1 _)

theorem assess_confidence_le (s : String) : assess_confidence s ≤ mkRat 17 20 := by
  unfold assess_confidence
  have h85 : mkRat 17 20 = (17 : ℚ) / 20 := by rw [Rat.mkRat_eq_div]; norm_num
  set c0 := uncertainty_phrases.foldl
      (fun c phrase =>
        if containsSub phrase.toList (s.toList.map Char.toLower) then qsub c (mkRat 1 10) else c)
      (mkRat 8 10) with hc0
  have hbase : c0 ≤ mkRat 8 10 := phrase_foldl_le _ _ _
  have h810 : mkRat 8 10 = (8 : ℚ) / 10 := by rw [Rat.mkRat_eq_div]; norm_num
  have hbonus :
      (if 200 < s.length then qadd c0 (mkRat 5 100) else c0) ≤ mkRat 17 20 := by
    by_cases h : 200 < s.length
    · simp only [h, if_true, qadd_eq]
      have h5 : mkRat 5 100 = (5 : ℚ) / 100 := by rw [Rat.mkRat_eq_div]; norm_num
      rw [h810] at hbase
      rw [h5, h85]
      linarith
    · simp only [h, if_false]
      rw [h85]
      rw [h810] at hbase
      linarith
  calc max 0 (min 1 (if 200 < s.length then qadd c0 (mkRat 5 100) else c0))
      ≤ max 0 (if 200 < s.length then qadd c0 (mkRat 5 100) else c0) :=
        max_le_max (le_refl 0) (min_le_right _ _)
    _ ≤ mkRat 17 20 := by
        refine max_le ?_ hbonus
        rw [h85]; norm_num

/-- C3: every envelope produced by any adapter operation — `analyze_image`,
`generate_text` and `chat`, on both the Gemini and the OpenAI adapter — has a
confidence in [0, 1] for every possible call outcome, i.e. for any response
text (any number of uncertainty phrases, any length) and also on failure. -/
theorem c3_confidence_in_unit_interval :
    ∀ (prompt : String) (context : Option String) (messages : List ChatMessage)
      (g : GeminiOutcome) (co : CallOutcome) (o : OpenAIOutcome) (t : ℕ) (ts : ℚ),
      (0 ≤ (GeminiService.analyze_image prompt g t ts).confidence ∧
        (GeminiService.analyze_image prompt g t ts).confidence ≤ 1) ∧
      (0 ≤ (GeminiService.generate_text prompt context g t ts).confidence ∧
        (GeminiService.generate_text prompt context g t ts).confidence ≤ 1) ∧
      (0 ≤ (GeminiService.chat messages co t ts).confidence ∧
        (GeminiService.chat messages co t ts).confidence ≤ 1) ∧
      (0 ≤ (OpenAIVisionService.analyze_image o t ts).confidence ∧
        (OpenAIVisionService.analyze_image o t ts).confidence ≤ 1) ∧
      (0 ≤ (OpenAIVisionService.generate_text o t ts).confidence ∧
        (OpenAIVisionService.generate_text o t ts).confidence ≤ 1) ∧
      (0 ≤ (OpenAIVisionService.chat o t ts).confidence ∧
        (OpenAIVisionService.chat o t ts).confidence ≤ 1) := by
  intro prompt context messages g co o t ts
  have hbump : ∀ s : String,
      0 ≤ qadd (assess_confidence s) (mkRat 5 100) ∧
        qadd (assess_confidence s) (mkRat 5 100) ≤ 1 := by
    intro s
    have h5 : mkRat 5 100 = (5 : ℚ) / 100 := by rw [Rat.mkRat_eq_div]; norm_num
    have h17 : mkRat 17 20 = (17 : ℚ) / 20 := by rw [Rat.mkRat_eq_div]; norm_num
    have h1 := assess_confidence_nonneg s
    have h2 := assess_confidence_le s
    rw [h17] at h2
    constructor
    · rw [qadd_eq, h5]; linarith
    · rw [qadd_eq, h5]; linarith
  refine ⟨?_, ?_, ?_, ?_, ?_, ?_⟩
  · cases g with
    | success text usage =>
      exact ⟨assess_confidence_nonneg text, assess_confidence_le_one text⟩
    | failure m => exact ⟨le_refl 0, zero_le_one⟩
  · cases g with
    | success text usage =>
      exact ⟨assess_confidence_nonneg text, assess_confidence_le_one text⟩
    | failure m => exact ⟨le_refl 0, zero_le_one⟩
  · cases co with
    | success text =>
      exact ⟨assess_confidence_nonneg text, assess_confidence_le_one text⟩
    | failure m => exact ⟨le_refl 0, zero_le_one⟩
  · cases o with
    | success text pt ct tt =>
      exact ⟨le_min (by norm_num) (hbump text).1, min_le_left 1 _⟩
    | failure m => exact ⟨le_refl 0, zero_le_one⟩
  · cases o with
    | success text pt ct tt => exact hbump text
    | failure m => exact ⟨le_refl 0, zero_le_one⟩
  · cases o with
    | success text pt ct tt => exact hbump text
    | failure m => exact ⟨le_refl 0, zero_le_one⟩

/-- C4: every adapter operation on both adapters returns an envelope even when
the provider call fails — the exception message lands in `error`, the
confidence and cost are zero, and (being total functions of the call outcome)
the adapters let no exception propagate. -/
theorem c4_failure_envelopes :
    ∀ (message prompt : String) (context : Option String) (messages : List ChatMessage)
      (t : ℕ) (ts : ℚ),
      ((GeminiService.analyze_image prompt (GeminiOutcome.failure message) t ts).error = some message ∧
        (GeminiService.analyze_image prompt (GeminiOutcome.failure message) t ts).confidence = 0 ∧
        (GeminiService.analyze_image prompt (GeminiOutcome.failure message) t ts).cost_usd = 0) ∧
      ((GeminiService.generate_text prompt context (GeminiOutcome.failure message) t ts).error = some message ∧
        (GeminiService.generate_text prompt context (GeminiOutcome.failure message) t ts).confidence = 0 ∧
        (GeminiService.generate_text prompt context (GeminiOutcome.failure message) t ts).cost_usd = 0) ∧
      ((GeminiService.chat messages (CallOutcome.failure message) t ts).error = some message ∧
        (GeminiService.chat messages (CallOutcome.failure message) t ts).confidence = 0 ∧
        (GeminiService.chat messages (CallOutcome.failure message) t ts).cost_usd = 0) ∧
      ((OpenAIVisionService.analyze_image (OpenAIOutcome.failure message) t ts).error = some message ∧
        (OpenAIVisionService.analyze_image (OpenAIOutcome.failure message) t ts).confidence = 0 ∧
        (OpenAIVisionService.analyze_image (OpenAIOutcome.failure message) t ts).cost_usd = 0) ∧
      ((OpenAIVisionService.generate_text (OpenAIOutcome.failure message) t ts).error = some message ∧
        (OpenAIVisionService.generate_text (OpenAIOutcome.failure message) t ts).confidence = 0 ∧
        (OpenAIVisionService.generate_text (OpenAIOutcome.failure message) t ts).cost_usd = 0) ∧
      ((OpenAIVisionService.chat (OpenAIOutcome.failure message) t ts).error = some message ∧
        (OpenAIVisionService.chat (OpenAIOutcome.failure message) t ts).confidence = 0 ∧
        (OpenAIVisionService.chat (OpenAIOutcome.failure message) t ts).cost_usd = 0) :=
  fun _ _ _ _ _ _ =>
    ⟨⟨rfl, rfl, rfl⟩, ⟨rfl, rfl, rfl⟩, ⟨rfl, rfl, rfl⟩,
     ⟨rfl, rfl, rfl⟩, ⟨rfl, rfl, rfl⟩, ⟨rfl, rfl, rfl⟩⟩

/-! ### Router facts (`analyze_meal`) -/

/-- An error envelope from the Gemini image adapter always carries
confidence 0. -/
theorem gemini_error_confidence (prompt : String) (oc : GeminiOutcome) (t : ℕ) (ts : ℚ)
    (h : (GeminiService.analyze_image prompt oc t ts).error.isSome = true) :
    (GeminiService.analyze_image prompt oc t ts).confidence = 0 := by
  cases oc with
  | success text usage => simp [GeminiService.analyze_image] at h
  | failure m => rfl

/-- An error envelope from the GPT-4 image adapter always carries
confidence 0. -/
theorem openai_error_confidence (oc : OpenAIOutcome) (t : ℕ) (ts : ℚ)
    (h : (OpenAIVisionService.analyze_image oc t ts).error.isSome = true) :
    (OpenAIVisionService.analyze_image oc t ts).confidence = 0 := by
  cases oc with
  | success text pt ct tt => simp [OpenAIVisionService.analyze_image] at h
  | failure m => rfl

/-- C1 (corrected): escalation happens only when the *selected* provider is
Gemini Flash.  In that case a primary confidence < 0.7 under the premium tier
issues exactly one additional call, to GPT-4 Vision, and returns the second
result, while a primary confidence ≥ 0.7 issues no second call; but when the
selected provider is GPT-4 Vision — which is the tier default for premium with
no forced provider — no second call is ever issued regardless of the primary
confidence. -/
theorem c1_escalation_routing :
    ∀ (ctx : MealAnalyzer.Ctx) (user_tier : String) (force_provider : Option AIProvider),
      (MealAnalyzer.select_provider user_tier force_provider = AIProvider.GEMINI_FLASH →
        (((MealAnalyzer.analyze_with_gemini ctx).confidence < MealAnalyzer.CONFIDENCE_THRESHOLD ∧
            user_tier = "premium") →
          MealAnalyzer.analyze_meal ctx user_tier force_provider =
            ([AIProvider.GEMINI_FLASH, AIProvider.GPT4_VISION],
             MealAnalyzer.meal_output (MealAnalyzer.analyze_with_gpt4 ctx))) ∧
        (MealAnalyzer.CONFIDENCE_THRESHOLD ≤ (MealAnalyzer.analyze_with_gemini ctx).confidence →
          MealAnalyzer.analyze_meal ctx user_tier force_provider =
            ([AIProvider.GEMINI_FLASH],
             MealAnalyzer.meal_output (MealAnalyzer.analyze_with_gemini ctx)))) ∧
      (MealAnalyzer.select_provider user_tier force_provider ≠ AIProvider.GEMINI_FLASH →
        MealAnalyzer.analyze_meal ctx user_tier force_provider =
          ([AIProvider.GPT4_VISION],
           MealAnalyzer.meal_output (MealAnalyzer.analyze_with_gpt4 ctx))) := by
  intro ctx user_tier force_provider
  constructor
  · intro hsel
    constructor
    · intro hesc
      unfold MealAnalyzer.analyze_meal
      rw [hsel, if_pos rfl, if_pos hesc]
    · intro hge
      unfold MealAnalyzer.analyze_meal
      rw [hsel, if_pos rfl, if_neg (fun hc => absurd hc.1 (not_lt.2 hge))]
  · intro hne
    unfold MealAnalyzer.analyze_meal
    rw [if_neg hne]

/-- Witness for C1: with a forced Gemini provider, premium tier, and a Gemini
response carrying two uncertainty phrases (confidence 0.6 < 0.7), exactly one
additional GPT-4 call is made and its result returned. -/
theorem c1_escalation_routing_witness :
    MealAnalyzer.analyze_meal c1_ctx ("premium") (some AIProvider.GEMINI_FLASH) =
      ([AIProvider.GEMINI_FLASH, AIProvider.GPT4_VISION],
       MealAnalyzer.meal_output (MealAnalyzer.analyze_with_gpt4 c1_ctx)) :=
  ((c1_escalation_routing c1_ctx ("premium") (some AIProvider.GEMINI_FLASH)).1 rfl).1
    ⟨by decide, rfl⟩

/-- Counterexample to C1 as stated: a premium call with no forced provider is
routed straight to GPT-4, and when that primary response has confidence < 0.7
(here an error envelope with confidence 0) NO additional call is issued — the
claim demanded exactly one additional call for every primary response with
confidence < 0.7 under the premium tier. -/
theorem c1_counterexample :
    (MealAnalyzer.analyze_meal c1_cx_ctx ("premium") none).1 = [AIProvider.GPT4_VISION] ∧
    (MealAnalyzer.analyze_with_gpt4 c1_cx_ctx).confidence < MealAnalyzer.CONFIDENCE_THRESHOLD :=
  ⟨rfl, by decide⟩

/-- C5 (corrected): a forced provider is selected with no further logic — the
tier-based default is never consulted, for every tier value.  The returned
result, however, is produced by the forced provider only when no other routing
step interferes: a forced provider other than Gemini Flash is dispatched to
the GPT-4 adapter (even `CLAUDE_VISION`), and a forced Gemini Flash still goes
through confidence-based escalation, so under the premium tier a
low-confidence Gemini result is replaced by GPT-4's. -/
theorem c5_forced_provider :
    ∀ (user_tier : String) (p : AIProvider) (ctx : MealAnalyzer.Ctx),
      MealAnalyzer.select_provider user_tier (some p) = p ∧
      (p ≠ AIProvider.GEMINI_FLASH →
        MealAnalyzer.analyze_meal ctx user_tier (some p) =
          ([AIProvider.GPT4_VISION],
           MealAnalyzer.meal_output (MealAnalyzer.analyze_with_gpt4 ctx))) ∧
      (¬((MealAnalyzer.analyze_with_gemini ctx).confidence < MealAnalyzer.CONFIDENCE_THRESHOLD ∧
          user_tier = "premium") →
        MealAnalyzer.analyze_meal ctx user_tier (some AIProvider.GEMINI_FLASH) =
          ([AIProvider.GEMINI_FLASH],
           MealAnalyzer.meal_output (MealAnalyzer.analyze_with_gemini ctx))) := by
  intro user_tier p ctx
  refine ⟨rfl, ?_, ?_⟩
  · intro hp
    unfold MealAnalyzer.analyze_meal
    rw [if_neg (by simpa [MealAnalyzer.select_provider] using hp)]
  · intro hnc
    change (if (MealAnalyzer.analyze_with_gemini ctx).confidence < MealAnalyzer.CONFIDENCE_THRESHOLD ∧
          user_tier = "premium" then
        ([AIProvider.GEMINI_FLASH, AIProvider.GPT4_VISION],
         MealAnalyzer.meal_output (MealAnalyzer.analyze_with_gpt4 ctx))
      else
        ([AIProvider.GEMINI_FLASH],
         MealAnalyzer.meal_output (MealAnalyzer.analyze_with_gemini ctx))) = _
    rw [if_neg hnc]

/-- Witness for C5: a forced `CLAUDE_VISION` provider under the free tier is
selected as-is (never the tier default) and dispatched to the GPT-4 adapter. -/
theorem c5_forced_provider_witness :
    MealAnalyzer.select_provider ("free") (some AIProvider.CLAUDE_VISION) =
        AIProvider.CLAUDE_VISION ∧
      MealAnalyzer.analyze_meal c5_w_ctx ("free") (some AIProvider.CLAUDE_VISION) =
        ([AIProvider.GPT4_VISION],
         MealAnalyzer.meal_output (MealAnalyzer.analyze_with_gpt4 c5_w_ctx)) :=
  ⟨(c5_forced_provider ("free") AIProvider.CLAUDE_VISION c5_w_ctx).1,
   (c5_forced_provider ("free") AIProvider.CLAUDE_VISION c5_w_ctx).2.1 (by decide)⟩

/-- Counterexample to C5 as stated: with forced provider Gemini Flash, premium
tier and a low-confidence Gemini response, the returned result is produced by
GPT-4 Vision, not by the forced provider. -/
theorem c5_counterexample :
    MealAnalyzer.analyze_meal c5_ctx ("premium") (some AIProvider.GEMINI_FLASH) =
      ([AIProvider.GEMINI_FLASH, AIProvider.GPT4_VISION],
       MealAnalyzer.meal_output (MealAnalyzer.analyze_with_gpt4 c5_ctx)) ∧
    (MealAnalyzer.analyze_with_gpt4 c5_ctx).provider ≠ AIProvider.GEMINI_FLASH :=
  ⟨rfl, by decide⟩

/-- C6 (corrected): when the primary provider call errors, the error envelope
is returned as-is with no escalation — EXCEPT when the selected provider is
Gemini Flash and the tier is premium: an error envelope has confidence 0,
which is below the 0.7 threshold, so the escalation branch fires and a second
GPT-4 call is made. -/
theorem c6_primary_error_routing :
    ∀ (ctx : MealAnalyzer.Ctx) (user_tier : String) (force_provider : Option AIProvider),
      (MealAnalyzer.select_provider user_tier force_provider ≠ AIProvider.GEMINI_FLASH →
        (MealAnalyzer.analyze_with_gpt4 ctx).error.isSome = true →
        MealAnalyzer.analyze_meal ctx user_tier force_provider =
          ([AIProvider.GPT4_VISION],
           MealAnalyzer.meal_output (MealAnalyzer.analyze_with_gpt4 ctx))) ∧
      (MealAnalyzer.select_provider user_tier force_provider = AIProvider.GEMINI_FLASH →
        (MealAnalyzer.analyze_with_gemini ctx).error.isSome = true →
        (user_tier ≠ "premium" →
          MealAnalyzer.analyze_meal ctx user_tier force_provider =
            ([AIProvider.GEMINI_FLASH],
             MealAnalyzer.meal_output (MealAnalyzer.analyze_with_gemini ctx))) ∧
        (user_tier = "premium" →
          MealAnalyzer.analyze_meal ctx user_tier force_provider =
            ([AIProvider.GEMINI_FLASH, AIProvider.GPT4_VISION],
             MealAnalyzer.meal_output (MealAnalyzer.analyze_with_gpt4 ctx)))) := by
  intro ctx user_tier force_provider
  constructor
  · intro hne _
    unfold MealAnalyzer.analyze_meal
    rw [if_neg hne]
  · intro hsel herr
    have hconf : (MealAnalyzer.analyze_with_gemini ctx).confidence = 0 :=
      gemini_error_confidence _ _ _ _ herr
    constructor
    · intro hfree
      unfold MealAnalyzer.analyze_meal
      rw [hsel, if_pos rfl, if_neg (fun hc => hfree hc.2)]
    · intro hprem
      unfold MealAnalyzer.analyze_meal
      rw [hsel, if_pos rfl, if_pos ⟨by rw [hconf]; decide, hprem⟩]

/-- Witness for C6: the premium default routes to GPT-4; when that primary
call errors, the error envelope's metadata is returned as-is with no
escalation. -/
theorem c6_primary_error_routing_witness :
    MealAnalyzer.analyze_meal c6_w_ctx ("premium") none =
      ([AIProvider.GPT4_VISION],
       MealAnalyzer.meal_output (MealAnalyzer.analyze_with_gpt4 c6_w_ctx)) :=
  (c6_primary_error_routing c6_w_ctx ("premium") none).1 (by decide) rfl

/-- Counterexample to C6 as stated: with a forced Gemini provider and premium
tier, a primary Gemini ERROR envelope (confidence 0) triggers a second call to
GPT-4 instead of being returned as-is. -/
theorem c6_counterexample :
    (MealAnalyzer.analyze_with_gemini c6_cx_ctx).error = some ("connection reset") ∧
    MealAnalyzer.analyze_meal c6_cx_ctx ("premium") (some AIProvider.GEMINI_FLASH) =
      ([AIProvider.GEMINI_FLASH, AIProvider.GPT4_VISION],
       MealAnalyzer.meal_output (MealAnalyzer.analyze_with_gpt4 c6_cx_ctx)) :=
  ⟨rfl, rfl⟩

/-- C10 (confirmed): when escalation fires (selected provider Gemini Flash,
primary confidence < 0.7, premium tier), the returned value is built from the
second envelope alone — in particular the `cost_usd` and `tokens_used` of the
returned `ai_metadata` are exactly those of the escalated GPT-4 envelope, and
the discarded Gemini envelope's cost and token usage appear nowhere. -/
theorem c10_escalated_metadata :
    ∀ (ctx : MealAnalyzer.Ctx) (user_tier : String) (force_provider : Option AIProvider),
      MealAnalyzer.select_provider user_tier force_provider = AIProvider.GEMINI_FLASH →
      (MealAnalyzer.analyze_with_gemini ctx).confidence < MealAnalyzer.CONFIDENCE_THRESHOLD →
      user_tier = "premium" →
      MealAnalyzer.analyze_meal ctx user_tier force_provider =
        ([AIProvider.GEMINI_FLASH, AIProvider.GPT4_VISION],
         MealAnalyzer.meal_output (MealAnalyzer.analyze_with_gpt4 ctx)) ∧
      (∀ out, MealAnalyzer.meal_output (MealAnalyzer.analyze_with_gpt4 ctx) = Except.ok out →
        out.ai_metadata.lookup ("cost_usd") =
            some (MetaVal.rat (MealAnalyzer.analyze_with_gpt4 ctx).cost_usd) ∧
        out.ai_metadata.lookup ("tokens_used") =
            some (MetaVal.nat (MealAnalyzer.analyze_with_gpt4 ctx).tokens_used)) := by
  intro ctx user_tier force_provider hsel hconf hprem
  constructor
  · unfold MealAnalyzer.analyze_meal
    rw [hsel, if_pos rfl, if_pos ⟨hconf, hprem⟩]
  · intro out hout
    unfold MealAnalyzer.meal_output at hout
    cases hp : parse_nutrition (MealAnalyzer.analyze_with_gpt4 ctx).content with
    | ok nd =>
      rw [hp] at hout
      simp only [Except.map] at hout
      cases hout
      constructor <;> rfl
    | error e =>
      rw [hp] at hout
      simp [Except.map] at hout

/-- Witness for C10: a concrete escalation (forced Gemini, premium, two
uncertainty phrases) whose returned metadata carries the GPT-4 envelope's cost
and token usage. -/
theorem c10_escalated_metadata_witness :
    MealAnalyzer.analyze_meal c10_ctx ("premium") (some AIProvider.GEMINI_FLASH) =
      ([AIProvider.GEMINI_FLASH, AIProvider.GPT4_VISION],
       MealAnalyzer.meal_output (MealAnalyzer.analyze_with_gpt4 c10_ctx)) ∧
    (∀ out, MealAnalyzer.meal_output (MealAnalyzer.analyze_with_gpt4 c10_ctx) = Except.ok out →
      out.ai_metadata.lookup ("cost_usd") =
          some (MetaVal.rat (MealAnalyzer.analyze_with_gpt4 c10_ctx).cost_usd) ∧
      out.ai_metadata.lookup ("tokens_used") =
          some (MetaVal.nat (MealAnalyzer.analyze_with_gpt4 c10_ctx).tokens_used)) :=
  c10_escalated_metadata c10_ctx ("premium") (some AIProvider.GEMINI_FLASH) rfl
    (by decide) rfl

/-! ### Parser totality analysis (C2) -/

theorem noRaise_ok {α : Type} (a : α) : noRaise (Except.ok a) := by
  intro e h
  exact Except.noConfusion h

theorem noRaise_caught {α : Type} : noRaise (α := α) (Except.error BuildErr.caught) := by
  intro e h
  simp at h

theorem noRaise_bind {α β : Type} {m : Except BuildErr α} {k : α → Except BuildErr β}
    (hm : noRaise m) (hk : ∀ a, noRaise (k a)) : noRaise (m >>= k) := by
  cases m with
  | ok a => exact hk a
  | error b =>
    intro e h
    have h2 : (Except.error b : Except BuildErr β) = Except.error (BuildErr.uncaught e) := h
    have hb : b = BuildErr.uncaught e := by injection h2
    exact hm e (by rw [hb])

theorem noRaise_map {α β : Type} {m : Except BuildErr α} (f : α → β)
    (hm : noRaise m) : noRaise (Except.map f m) := by
  cases m with
  | ok a => exact noRaise_ok _
  | error b =>
    intro e h
    have h2 : (Except.error b : Except BuildErr β) = Except.error (BuildErr.uncaught e) := h
    have hb : b = BuildErr.uncaught e := by injection h2
    exact hm e (by rw [hb])

theorem floatF_noRaise (v : Json) (h : float_coercible v = true) : noRaise (floatF v) := by
  cases v with
  | num q => exact noRaise_ok _
  | bool b => exact noRaise_ok _
  | str s =>
    intro e
    unfold floatF
    cases hps : pyFloatString s with
    | some q => simp [hps]
    | none => simp [hps]
  | null => simp [float_coercible] at h
  | arr l => simp [float_coercible] at h
  | obj f => simp [float_coercible] at h

theorem optFloatF_noRaise (nf : List (String × Json)) (key : String)
    (h : benign_optional nf key = true) : noRaise (optFloatF nf key) := by
  unfold benign_optional at h
  unfold optFloatF
  cases hv : objGet nf key with
  | none => exact noRaise_ok _
  | some v =>
    rw [hv] at h
    have h2 : (!truthy v || float_coercible v) = true := h
    show noRaise (if truthy v = true then (floatF v).map some else Except.ok none)
    by_cases ht : truthy v = true
    · rw [if_pos ht]
      have hc : float_coercible v = true := by
        rw [ht] at h2
        simpa using h2
      exact noRaise_map _ (floatF_noRaise v hc)
    · rw [if_neg ht]
      exact noRaise_ok _

theorem benign_required_coercible (nf : List (String × Json)) (key : String)
    (h : benign_required nf key = true) :
    float_coercible (objGetD nf key (Json.num 0)) = true := by
  unfold benign_required at h
  unfold objGetD
  cases hv : objGet nf key with
  | none => rfl
  | some v =>
    rw [hv] at h
    simpa using h

theorem validated_noRaise (fields nf : List (String × Json))
    (c p cb f : ℚ) (fi su so : Option ℚ) :
    noRaise (validated_nutrition fields nf c p cb f fi su so) := by
  unfold validated_nutrition
  cases asStrList (objGetD fields ("ingredients") (Json.arr [])) <;>
    cases asStrPairs (objGetD fields ("portions") (Json.obj [])) <;>
    cases (match objGet fields ("meal_type") with
           | none => some none
           | some v => asOptStr v) <;>
    cases asOptStr (objGetD fields ("confidence_notes") (Json.str "")) <;>
    first
      | exact noRaise_caught
      | exact noRaise_ok _

theorem nutrition_macros_noRaise (fields nf : List (String × Json))
    (h : (macro_keys.all (benign_required nf) &&
          optional_macro_keys.all (benign_optional nf)) = true) :
    noRaise (nutrition_macros_build fields nf) := by
  simp only [macro_keys, optional_macro_keys, List.all_cons, List.all_nil,
    Bool.and_eq_true, Bool.and_true] at h
  obtain ⟨⟨h1, h2, h3, h4⟩, h5, h6, h7⟩ := h
  unfold nutrition_macros_build
  refine noRaise_bind (floatF_noRaise _ (benign_required_coercible _ _ h1)) (fun _ => ?_)
  refine noRaise_bind (floatF_noRaise _ (benign_required_coercible _ _ h2)) (fun _ => ?_)
  refine noRaise_bind (floatF_noRaise _ (benign_required_coercible _ _ h3)) (fun _ => ?_)
  refine noRaise_bind (floatF_noRaise _ (benign_required_coercible _ _ h4)) (fun _ => ?_)
  refine noRaise_bind (optFloatF_noRaise _ _ h5) (fun _ => ?_)
  refine noRaise_bind (optFloatF_noRaise _ _ h6) (fun _ => ?_)
  refine noRaise_bind (optFloatF_noRaise _ _ h7) (fun _ => ?_)
  exact validated_noRaise _ _ _ _ _ _ _ _ _

theorem nutrition_fields_noRaise (fields : List (String × Json))
    (h : benign_fields fields = true) : noRaise (nutrition_fields_build fields) := by
  unfold benign_fields at h
  unfold nutrition_fields_build
  cases hnr : objGetD fields ("nutrition") (Json.obj []) with
  | obj nf =>
    rw [hnr] at h
    exact nutrition_macros_noRaise fields nf h
  | null => rw [hnr] at h; simp at h
  | bool b => rw [hnr] at h; simp at h
  | num q => rw [hnr] at h; simp at h
  | str s => rw [hnr] at h; simp at h
  | arr l => rw [hnr] at h; simp at h

theorem nutrition_from_json_noRaise (d : Json) (h : benign_json d = true) :
    noRaise (nutrition_from_json d) := by
  cases d with
  | obj fields => exact nutrition_fields_noRaise fields h
  | null => simp [benign_json] at h
  | bool b => simp [benign_json] at h
  | num q => simp [benign_json] at h
  | str s => simp [benign_json] at h
  | arr l => simp [benign_json] at h

/-- C2 (corrected): the parser is total on every input whose JSON-decoding
stage fails (pure prose, the empty string, malformed JSON) — it returns the
regex-fallback record, whose macro fields are always populated — and on every
decoded JSON document of benign shape (a dict whose optional `nutrition` entry
is a dict with float-coercible macro values); but it is NOT total on all valid
JSON, as the counterexample shows. -/
theorem c2_parser_totality :
    (∀ text : String, extracted_json text = none →
        parse_nutrition text = Except.ok (parse_natural_language text)) ∧
    (∀ (text : String) (d : Json), extracted_json text = some d → benign_json d = true →
        ∃ nd, parse_nutrition text = Except.ok nd) := by
  constructor
  · intro text h
    unfold parse_nutrition
    rw [h]
  · intro text d h hb
    have hpn : parse_nutrition text = strict_or_fallback text d := by
      unfold parse_nutrition
      rw [h]
    rw [hpn]
    unfold strict_or_fallback
    have hnr := nutrition_from_json_noRaise d hb
    cases hj : nutrition_from_json d with
    | ok nd => exact ⟨nd, rfl⟩
    | error b =>
      cases b with
      | caught => exact ⟨parse_natural_language text, rfl⟩
      | uncaught e => exact absurd hj (fun hh => hnr e (by rw [hh]))

/-- Witness for C2: the empty string fails JSON decoding, and the parser
returns the all-default fallback record rather than raising. -/
theorem c2_parser_totality_witness :
    parse_nutrition ("") = Except.ok (parse_natural_language ("")) ∧
    (parse_natural_language ("")).calories = 0 ∧
    (parse_natural_language ("")).protein_g = 0 ∧
    (parse_natural_language ("")).carbs_g = 0 ∧
    (parse_natural_language ("")).fat_g = 0 :=
  ⟨c2_parser_totality.1 ("") rfl, rfl, rfl, rfl, rfl⟩

/-- Counterexample to C2 as stated: `"[1, 2]"` is valid JSON, but
`json.loads` yields a list, `.get` on a list raises `AttributeError`, which is
not in the caught `(json.JSONDecodeError, KeyError, ValueError)` tuple — the
parser raises instead of returning a record. -/
theorem c2_counterexample :
    parse_nutrition ("[1, 2]") = Except.error PyExc.attributeError := rfl

/-! ### The malformed-output scenario (C7) -/

/-- Counterexample to C7 as stated: on the scenario text the fallback regexes
extract nothing — `calories?:?\s*(\d+\.?\d*)` requires the number AFTER the
keyword, but the text reads "450 calories" / "30g protein" — so the parser
returns 0 and 0, not 450 and 30. -/
theorem c7_counterexample :
    (parse_natural_language c7_text).calories = 0 ∧
    (parse_natural_language c7_text).protein_g = 0 ∧
    ¬((parse_natural_language c7_text).calories = 450 ∧
      (parse_natural_language c7_text).protein_g = 30) :=
  ⟨rfl, rfl, by decide⟩

/-- C7 (corrected): on the scenario text the parser does fall back to regex
extraction with confidence 0.6 and the fallback note, but the extracted values
are `calories = 0` and `protein_g = 0` (the numeric patterns require the
number to follow the keyword, and here the numbers precede it). -/
theorem c7_fallback_extraction :
    parse_nutrition c7_text = Except.ok (parse_natural_language c7_text) ∧
    parse_natural_language c7_text =
      { calories := 0, protein_g := 0, carbs_g := 0, fat_g := 0,
        confidence := mkRat 6 10,
        notes := some ("Parsed from natural language response (fallback mode)") } :=
  ⟨rfl, rfl⟩

/-! ### `ai_metadata` shapes (C8) -/

/-- C8 (corrected): only `analyze_meal` returns the full 7-field
`ai_metadata` block `{provider, model, confidence, cost_usd,
response_time_ms, tokens_used, error}`.  `chat` omits `error`;
`generate_recipe` omits `tokens_used` and `error`; `generate_from_photo`,
`suggest_meal` and `analyze_diet_trends` return only `{provider, cost_usd,
response_time_ms}`. -/
theorem c8_ai_metadata_shapes :
    ∀ r : AIResponse,
      (MealAnalyzer.ai_metadata r).map Prod.fst = required_ai_metadata_keys ∧
      (ChatAssistant.chat_ai_metadata r).map Prod.fst =
        [("provider"), ("model"), ("confidence"), ("cost_usd"),
         ("response_time_ms"), ("tokens_used")] ∧
      (RecipeGenerator.generate_recipe_ai_metadata r).map Prod.fst =
        [("provider"), ("model"), ("confidence"), ("cost_usd"), ("response_time_ms")] ∧
      (RecipeGenerator.generate_from_photo_ai_metadata r).map Prod.fst =
        [("provider"), ("cost_usd"), ("response_time_ms")] ∧
      (ChatAssistant.suggest_meal_ai_metadata r).map Prod.fst =
        [("provider"), ("cost_usd"), ("response_time_ms")] ∧
      (ChatAssistant.analyze_diet_trends_ai_metadata r).map Prod.fst =
        [("provider"), ("cost_usd"), ("response_time_ms")] :=
  fun _ => ⟨rfl, rfl, rfl, rfl, rfl, rfl⟩

/-- Counterexample to C8 as stated: `suggest_meal`'s `ai_metadata` does not
carry the required field set — in particular `tokens_used` (and `model`,
`confidence`) are absent. -/
theorem c8_counterexample :
    (ChatAssistant.suggest_meal_ai_metadata c8_env).map Prod.fst ≠ required_ai_metadata_keys ∧
    ¬(("tokens_used") ∈ (ChatAssistant.suggest_meal_ai_metadata c8_env).map Prod.fst) ∧
    ¬(("model") ∈ (ChatAssistant.suggest_meal_ai_metadata c8_env).map Prod.fst) :=
  ⟨by decide, by decide, by decide⟩

/-! ### `quick_calorie_estimate` (C9) -/

/-- C9 (corrected): when the cheap provider's content parses as a JSON dict,
`quick_calorie_estimate` returns the four fields `calories`, `description`,
`cost_usd` (the adapter's computed value) and `response_time_ms` (the measured
value); but when `json.loads` fails the bare-`except` branch returns only
`{calories: 0, description: "Could not analyze", error}` with no cost fields,
so the claim does not hold for every input. -/
theorem c9_quick_estimate_shape :
    ∀ (outcome : GeminiOutcome) (t : ℕ) (ts : ℚ),
      (∀ fields,
        json_loads (GeminiService.analyze_image MealAnalyzer.quick_prompt outcome t ts).content =
            some (Json.obj fields) →
        MealAnalyzer.quick_calorie_estimate outcome t ts =
          MealAnalyzer.QuickEstimate.parsed
            (objGetD fields ("calories") (Json.num 0))
            (objGetD fields ("description") (Json.str ("Unknown meal")))
            (GeminiService.analyze_image MealAnalyzer.quick_prompt outcome t ts).cost_usd
            (GeminiService.analyze_image MealAnalyzer.quick_prompt outcome t ts).response_time_ms) ∧
      (json_loads (GeminiService.analyze_image MealAnalyzer.quick_prompt outcome t ts).content =
          none →
        MealAnalyzer.quick_calorie_estimate outcome t ts =
          MealAnalyzer.QuickEstimate.failed
            (GeminiService.analyze_image MealAnalyzer.quick_prompt outcome t ts).error) := by
  intro outcome t ts
  constructor
  · intro fields h
    simp only [MealAnalyzer.quick_calorie_estimate]
    rw [h]
  · intro h
    simp only [MealAnalyzer.quick_calorie_estimate]
    rw [h]

/-- Witness for C9: the spec's mocked scenario — content
`{"calories": 410, "description": "turkey sandwich"}` yields exactly those
two values plus the adapter's computed cost and the measured time. -/
theorem c9_quick_estimate_shape_witness :
    MealAnalyzer.quick_calorie_estimate c9_outcome 120 0 =
      MealAnalyzer.QuickEstimate.parsed
        (objGetD c9_fields ("calories") (Json.num 0))
        (objGetD c9_fields ("description") (Json.str ("Unknown meal")))
        (GeminiService.analyze_image MealAnalyzer.quick_prompt c9_outcome 120 0).cost_usd
        (GeminiService.analyze_image MealAnalyzer.quick_prompt c9_outcome 120 0).response_time_ms ∧
    objGetD c9_fields ("calories") (Json.num 0) = Json.num (mkRat 410 1) ∧
    objGetD c9_fields ("description") (Json.str ("Unknown meal")) =
      Json.str ("turkey sandwich") ∧
    (GeminiService.analyze_image MealAnalyzer.quick_prompt c9_outcome 120 0).response_time_ms =
      120 :=
  ⟨(c9_quick_estimate_shape c9_outcome 120 0).1 c9_fields rfl, rfl, rfl, rfl⟩

/-- Counterexample to C9 as stated: non-JSON provider content makes
`quick_calorie_estimate` return the fallback dict, which lacks the `cost_usd`
and `response_time_ms` fields. -/
theorem c9_counterexample :
    MealAnalyzer.quick_calorie_estimate (GeminiOutcome.success ("oops") none) 120 0 =
      MealAnalyzer.QuickEstimate.failed none ∧
    (MealAnalyzer.quick_calorie_estimate
        (GeminiOutcome.success ("oops") none) 120 0).includes_cost_fields = false :=
  ⟨rfl, rfl⟩

end Sarma
